import Mathlib

/-!
Shallow embedding of the INA219 driver (ina219.c / ina219.h) and of the
demo program configuration (main.c), together with theorems settling the
specification claims about it.

Modelling conventions:
- C int arithmetic is modelled on Int; C division truncates toward zero,
  which is Int.tdiv.  C's % 2^16 two's-complement reinterpretation of a
  raw 16-bit pattern as int16_t is toInt16.
- The two I2C system calls made by one register read are modelled by an
  oracle record SyscallOutcome carrying the return values of write() and
  read(), the bytes the read deposits, and strerror(errno).
- Out-parameters written through pointers are modelled as Option cells:
  none means the caller's variable was never assigned by the call.
  errorWrites counts how many times the char **error out-parameter was
  assigned (by asprintf) during the call, for a caller passing a non-null
  error pointer.
-/

namespace INA219

/-- Charge status values returned by ina219_get_status (ina219.h). -/
inductive INA219ChargeStatus where
  | fullyCharged
  | charging
  | discharging
deriving DecidableEq

/-- The INA_FULL_PERCENT threshold from ina219.h: the percentage at or above
which the battery is reported fully charged. -/
def INA_FULL_PERCENT : Int := 99

/-- Shunt voltage register index (ina219.c, SHUNT_REG). -/
def SHUNT_REG : Nat := 1

/-- Bus voltage register index (ina219.c, BUS_REG). -/
def BUS_REG : Nat := 2

/-- Reinterpretation of a raw 16-bit pattern as the int16_t value it denotes,
as performed by the C assignment of (buff[0] << 8) | buff[1] to *data. -/
def toInt16 (r : Nat) : Int :=
  if r < 32768 then (r : Int) else (r : Int) - 65536

/-- Big-endian assembly (buff[0] << 8) | buff[1] of the two bytes returned by
the read; each byte is reduced mod 256 as the C BYTE type guarantees. -/
def assemble16 (b0 b1 : Nat) : Nat := b0 % 256 * 256 + b1 % 256

/-- Outcome of the two I2C system calls made by one ina219_register_read_16:
the return value of the 1-byte write(), the return value of the 2-byte
read(), the two bytes the read deposits in buff, and strerror(errno). -/
structure SyscallOutcome where
  writeResult : Int
  readResult : Int
  byte0 : Nat
  byte1 : Nat
  errnoMsg : String
deriving DecidableEq

/-- Result of ina219_register_read_16: the BOOL return value, the data
out-parameter (assigned only on success), the error out-parameter (assigned
only on failure), and the number of assignments to the error out-parameter. -/
structure RegRead16Result where
  ret : Bool
  data : Option Int
  errorMsg : Option String
  errorWrites : Nat
deriving DecidableEq

/-- Shallow embedding of ina219_register_read_16 (ina219.c lines 69-98).
The C tests the write with if (write (self->fd, &buff, 1)), taking the
then-branch whenever write() returns any nonzero value -- including the
POSIX error return -1; only a zero return reaches the write-error branch.
The read succeeds exactly when read() returns 2. -/
def ina219_register_read_16 (o : SyscallOutcome) : RegRead16Result :=
  if o.writeResult ≠ 0 then
    if o.readResult = 2 then
      { ret := true, data := some (toInt16 (assemble16 o.byte0 o.byte1)),
        errorMsg := none, errorWrites := 0 }
    else
      { ret := false, data := none,
        errorMsg := some ("Failed to read I2C device: " ++ o.errnoMsg ++ "\n"),
        errorWrites := 1 }
  else
    { ret := false, data := none,
      errorMsg := some ("Failed to write I2C device: " ++ o.errnoMsg ++ "\n"),
      errorWrites := 1 }

/-- Result of ina219_get_bus_voltage and ina219_get_shunt_voltage: the BOOL
return, the mv out-parameter cell, and the error out-parameter cells. -/
structure VoltageResult where
  ret : Bool
  mv : Option Int
  errorMsg : Option String
  errorWrites : Nat
deriving DecidableEq

/-- Decoding of the raw bus-voltage register (ina219.c line 118).  The C
computes (regval & 0xFFF8) >> 1 after promoting the int16_t regval to int;
since 0xFFF8 < 2^16, the bitwise-and of the 32-bit two's complement keeps
only bits 3..15 of the low 16 bits, i.e. of regval mod 2^16, and the result
is non-negative so >> 1 is a logical shift. -/
def busVoltageDecode (regval : Int) : Int :=
  ((((regval % 65536).toNat &&& 0xFFF8) >>> 1 : Nat) : Int)

/-- Shallow embedding of ina219_get_bus_voltage (ina219.c lines 105-123). -/
def ina219_get_bus_voltage (o : SyscallOutcome) : VoltageResult :=
  let r := ina219_register_read_16 o
  if r.ret then
    { ret := true, mv := some (busVoltageDecode (r.data.getD 0)),
      errorMsg := r.errorMsg, errorWrites := r.errorWrites }
  else
    { ret := false, mv := none, errorMsg := r.errorMsg,
      errorWrites := r.errorWrites }

/-- Shallow embedding of ina219_get_shunt_voltage (ina219.c lines 130-144):
mv = regval / 100 with C division truncating toward zero (Int.tdiv). -/
def ina219_get_shunt_voltage (o : SyscallOutcome) : VoltageResult :=
  let r := ina219_register_read_16 o
  if r.ret then
    { ret := true, mv := some (Int.tdiv (r.data.getD 0) 100),
      errorMsg := r.errorMsg, errorWrites := r.errorWrites }
  else
    { ret := false, mv := none, errorMsg := r.errorMsg,
      errorWrites := r.errorWrites }

/-- Battery and system configuration stored in struct _INA219 (ina219.c). -/
structure INA219Config where
  shunt_milliohms : Int
  battery_voltage_0_percent : Int
  battery_voltage_100_percent : Int
  battery_capacity : Int
  min_charging_current : Int
deriving DecidableEq

/-- Configuration built by the demo program main.c (two 18650 cells in
series, 0.1 ohm shunt). -/
def demoConfig : INA219Config :=
  { shunt_milliohms := 100, battery_voltage_0_percent := 6000,
    battery_voltage_100_percent := 8260, battery_capacity := 2400,
    min_charging_current := 10 }

/-- Percentage computation of ina219_get_status (ina219.c lines 255-258):
truncating division followed by the two sequential clamping ifs. -/
def percentFromBus (cfg : INA219Config) (mv : Int) : Int :=
  let p := Int.tdiv (100 * (mv - cfg.battery_voltage_0_percent))
      (cfg.battery_voltage_100_percent - cfg.battery_voltage_0_percent)
  let p1 := if p > 100 then 100 else p
  if p1 < 0 then 0 else p1

/-- Charge status classification of ina219_get_status (ina219.c lines
274-289). -/
def chargeStatusCalc (cfg : INA219Config) (percent mA : Int) :
    INA219ChargeStatus :=
  if INA_FULL_PERCENT ≤ percent ∨ mA < cfg.min_charging_current then
    .fullyCharged
  else if 0 < mA then .charging
  else .discharging

/-- Time estimate of ina219_get_status (ina219.c lines 291-317).  The C
statement int sec = 3600 * remaining_capacity / (double) mA truncates the
real-valued quotient toward zero when converting back to int, which is
Int.tdiv of the exact quotient; at the magnitudes used here (products below
2^53) the double quotient equals the exact rational quotient whenever the
latter is an integer, and truncation of the exact quotient otherwise agrees
with Int.tdiv.  Division by a zero current is undefined in the C; here
Int.tdiv _ 0 = 0. -/
def minutesCalc (cfg : INA219Config) (percent mA : Int)
    (cs : INA219ChargeStatus) : Int :=
  if cs = .fullyCharged then 0
  else if 0 ≤ mA then
    let remaining_capacity :=
      Int.tdiv ((100 - percent) * cfg.battery_capacity) 100
    let sec := Int.tdiv (3600 * remaining_capacity) mA
    Int.tdiv sec 60
  else
    let remaining_capacity := Int.tdiv (percent * cfg.battery_capacity) 100
    let sec := Int.tdiv (3600 * remaining_capacity) (-mA)
    Int.tdiv sec 60

/-- The arithmetic of the ina219_get_status success path, as a function of
the decoded bus voltage and decoded shunt voltage: charge status, clamped
percentage, battery current in mA, and minutes estimate. -/
def statusCalc (cfg : INA219Config) (bus_mv shunt_mv : Int) :
    INA219ChargeStatus × Int × Int × Int :=
  let percent := percentFromBus cfg bus_mv
  let mA := Int.tdiv (shunt_mv * 1000) cfg.shunt_milliohms
  let cs := chargeStatusCalc cfg percent mA
  (cs, percent, mA, minutesCalc cfg percent mA cs)

/-- Result of ina219_get_status: the BOOL return, the five out-parameter
cells, the error out-parameter cells, and the list of register indices
actually read on the bus during the call. -/
structure StatusResult where
  ret : Bool
  charge_status : Option INA219ChargeStatus
  battery_voltage_mv : Option Int
  percent_charged : Option Int
  battery_current_mA : Option Int
  minutes : Option Int
  errorMsg : Option String
  errorWrites : Nat
  regsRead : List Nat
deriving DecidableEq

/-- Shallow embedding of ina219_get_status (ina219.c lines 234-322).  The
bus voltage and the percentage are stored through the caller's pointers
before the shunt read is attempted, exactly as in the C; on shunt-read
failure those two cells therefore remain assigned while the function
returns FALSE. -/
def ina219_get_status (cfg : INA219Config) (oBus oShunt : SyscallOutcome) :
    StatusResult :=
  let b := ina219_get_bus_voltage oBus
  if b.ret then
    let mv := b.mv.getD 0
    let percent := percentFromBus cfg mv
    let s := ina219_get_shunt_voltage oShunt
    if s.ret then
      let smv := s.mv.getD 0
      let r := statusCalc cfg mv smv
      { ret := true, charge_status := some r.1,
        battery_voltage_mv := some mv, percent_charged := some percent,
        battery_current_mA := some r.2.2.1, minutes := some r.2.2.2,
        errorMsg := none, errorWrites := 0,
        regsRead := [BUS_REG, SHUNT_REG] }
    else
      { ret := false, charge_status := none,
        battery_voltage_mv := some mv, percent_charged := some percent,
        battery_current_mA := none, minutes := none,
        errorMsg := s.errorMsg, errorWrites := s.errorWrites,
        regsRead := [BUS_REG, SHUNT_REG] }
  else
    { ret := false, charge_status := none, battery_voltage_mv := none,
      percent_charged := none, battery_current_mA := none, minutes := none,
      errorMsg := b.errorMsg, errorWrites := b.errorWrites,
      regsRead := [BUS_REG] }

/-- State of the transport handle owned by one INA219 instance: closed
(self->fd == -1, no descriptor), open but with no address bound (a
descriptor is held but the I2C_SLAVE ioctl did not succeed), or open with
the target address bound. -/
inductive HandleState where
  | closed
  | openUnbound (fd : Nat)
  | openBound (fd : Nat) (addr : Int)
deriving DecidableEq

/-- True exactly for the closed handle state. -/
def HandleState.isClosed : HandleState → Bool
  | .closed => true
  | _ => false

/-- True exactly for the open-and-bound handle states. -/
def HandleState.isBound : HandleState → Bool
  | .openBound _ _ => true
  | _ => false

/-- Shallow embedding of ina219_init (ina219.c lines 190-214) acting on the
handle state.  openResult models the return of open() (none for -1, some fd
for a new descriptor) and bindOk the success of the I2C_SLAVE ioctl.  The C
stores the open() return in self->fd unconditionally; on ioctl failure it
returns FALSE without closing the descriptor or resetting self->fd, leaving
the handle open and unbound. -/
def ina219_init (addr : Int) (openResult : Option Nat) (bindOk : Bool) :
    Bool × HandleState :=
  match openResult with
  | none => (false, .closed)
  | some fd => if bindOk then (true, .openBound fd addr)
               else (false, .openUnbound fd)

/-- Shallow embedding of ina219_uninit (ina219.c lines 219-224): closes the
descriptor if open and sets self->fd to -1; idempotent. -/
def ina219_uninit (_s : HandleState) : HandleState := .closed

/-- One operation on an INA219 instance that can affect or observe the
handle: an init attempt with its syscall outcomes, an uninit, or a register
read (which leaves the handle unchanged). -/
inductive DriverOp where
  | initOp (openResult : Option Nat) (bindOk : Bool)
  | uninitOp
  | readOp
deriving DecidableEq

/-- Effect of one driver operation on the handle state. -/
def handleStep (addr : Int) (s : HandleState) : DriverOp → HandleState
  | .initOp o b => (ina219_init addr o b).2
  | .uninitOp => ina219_uninit s
  | .readOp => s

/-- Handle state after a sequence of driver operations. -/
def runOps (addr : Int) (s : HandleState) : List DriverOp → HandleState
  | [] => s
  | op :: ops => runOps addr (handleStep addr s op) ops

/-- Decoded bus voltage delivered by a successful bus-register read with the
given syscall outcome. -/
def busDecodeOf (o : SyscallOutcome) : Int :=
  busVoltageDecode (toInt16 (assemble16 o.byte0 o.byte1))

/-- Decoded shunt voltage delivered by a successful shunt-register read with
the given syscall outcome. -/
def shuntDecodeOf (o : SyscallOutcome) : Int :=
  Int.tdiv (toInt16 (assemble16 o.byte0 o.byte1)) 100

/-- Percentage formula in the spec's words: truncating integer division,
then clamped into the interval from 0 to 100. -/
def percentSpec (v v0 v100 : Int) : Int :=
  max 0 (min 100 (Int.tdiv (100 * (v - v0)) (v100 - v0)))

/-- Division by 100 truncating toward zero with the sign preserved, in the
spec's words, for comparison with the shunt decode of the source. -/
def truncDiv100Spec (v : Int) : Int :=
  if 0 ≤ v then ((v.toNat / 100 : Nat) : Int) else -(((-v).toNat / 100 : Nat) : Int)

/-- Handle-state invariant: closed, or open and bound to the configured
address, or open with no address bound. -/
def handleInv (addr : Int) (s : HandleState) : Prop :=
  s = .closed ∨ (∃ fd, s = .openBound fd addr) ∨ (∃ fd, s = .openUnbound fd)

/-- Syscall outcome in which both calls succeed and the read returns the
bytes 0x37 0xB8: raw bus register value 14264, decoding to 7132 mV. -/
def busOkOutcome : SyscallOutcome :=
  { writeResult := 1, readResult := 2, byte0 := 55, byte1 := 184,
    errnoMsg := "" }

/-- Syscall outcome in which both calls succeed and the read returns the
bytes 0x13 0x88: raw shunt register value 5000, decoding to 50 mV. -/
def shuntOkOutcome : SyscallOutcome :=
  { writeResult := 1, readResult := 2, byte0 := 19, byte1 := 136,
    errnoMsg := "" }

/-- Syscall outcome in which the write succeeds but the read returns 0
bytes. -/
def readFailOutcome : SyscallOutcome :=
  { writeResult := 1, readResult := 0, byte0 := 0, byte1 := 0,
    errnoMsg := "Remote I/O error" }

/-- Syscall outcome in which the write fails with the POSIX error return -1
and the subsequent read nevertheless returns 2 bytes (raw value 5000). -/
def writeFailReadOkOutcome : SyscallOutcome :=
  { writeResult := -1, readResult := 2, byte0 := 19, byte1 := 136,
    errnoMsg := "Input/output error" }

/-- Syscall outcome in which the write returns 0, the only return value the
C write-error branch can observe. -/
def writeZeroOutcome : SyscallOutcome :=
  { writeResult := 0, readResult := 0, byte0 := 0, byte1 := 0,
    errnoMsg := "Input/output error" }

theorem assemble16_lt (b0 b1 : Nat) : assemble16 b0 b1 < 65536 := by
  unfold assemble16
  omega

theorem toInt16_emod_toNat (r : Nat) (h : r < 65536) :
    (toInt16 r % 65536).toNat = r := by
  unfold toInt16
  split <;> omega

theorem busVoltageDecode_toInt16 (r : Nat) (h : r < 65536) :
    busVoltageDecode (toInt16 r) = (((r &&& 0xFFF8) >>> 1 : Nat) : Int) := by
  unfold busVoltageDecode
  rw [toInt16_emod_toNat r h]

theorem tdiv100_eq_truncSpec (v : Int) : Int.tdiv v 100 = truncDiv100Spec v := by
  unfold truncDiv100Spec
  cases v with
  | ofNat m =>
    rw [if_pos (by exact Int.ofNat_le.mpr (Nat.zero_le m))]
    rfl
  | negSucc m =>
    rw [if_neg (by exact Int.not_le.mpr (Int.negSucc_lt_zero m))]
    rfl

theorem truncDiv100Spec_nonneg (v : Int) (h : 0 ≤ v) : 0 ≤ truncDiv100Spec v := by
  unfold truncDiv100Spec
  rw [if_pos h]
  exact Int.ofNat_le.mpr (Nat.zero_le _)

theorem truncDiv100Spec_nonpos (v : Int) (h : v < 0) : truncDiv100Spec v ≤ 0 := by
  unfold truncDiv100Spec
  rw [if_neg (Int.not_le.mpr h)]
  exact neg_nonpos_of_nonneg (Int.ofNat_le.mpr (Nat.zero_le _))

theorem reg_read_16_ok (o : SyscallOutcome) (hw : o.writeResult ≠ 0)
    (hr : o.readResult = 2) :
    ina219_register_read_16 o =
      { ret := true, data := some (toInt16 (assemble16 o.byte0 o.byte1)),
        errorMsg := none, errorWrites := 0 } := by
  simp [ina219_register_read_16, hw, hr]

theorem get_bus_voltage_ok (o : SyscallOutcome) (hw : o.writeResult ≠ 0)
    (hr : o.readResult = 2) :
    ina219_get_bus_voltage o =
      { ret := true, mv := some (busDecodeOf o),
        errorMsg := none, errorWrites := 0 } := by
  simp [ina219_get_bus_voltage, reg_read_16_ok o hw hr, busDecodeOf]

theorem get_shunt_voltage_ok (o : SyscallOutcome) (hw : o.writeResult ≠ 0)
    (hr : o.readResult = 2) :
    ina219_get_shunt_voltage o =
      { ret := true, mv := some (shuntDecodeOf o),
        errorMsg := none, errorWrites := 0 } := by
  simp [ina219_get_shunt_voltage, reg_read_16_ok o hw hr, shuntDecodeOf]

theorem bus_ret_iff (o : SyscallOutcome) :
    (ina219_get_bus_voltage o).ret = true ↔
      o.writeResult ≠ 0 ∧ o.readResult = 2 := by
  unfold ina219_get_bus_voltage ina219_register_read_16
  split_ifs <;> simp_all

theorem shunt_ret_iff (o : SyscallOutcome) :
    (ina219_get_shunt_voltage o).ret = true ↔
      o.writeResult ≠ 0 ∧ o.readResult = 2 := by
  unfold ina219_get_shunt_voltage ina219_register_read_16
  split_ifs <;> simp_all

theorem get_status_run (cfg : INA219Config) (ob os : SyscallOutcome)
    (hbw : ob.writeResult ≠ 0) (hbr : ob.readResult = 2)
    (hsw : os.writeResult ≠ 0) (hsr : os.readResult = 2) :
    ina219_get_status cfg ob os =
      { ret := true,
        charge_status := some (statusCalc cfg (busDecodeOf ob) (shuntDecodeOf os)).1,
        battery_voltage_mv := some (busDecodeOf ob),
        percent_charged := some (percentFromBus cfg (busDecodeOf ob)),
        battery_current_mA := some (statusCalc cfg (busDecodeOf ob) (shuntDecodeOf os)).2.2.1,
        minutes := some (statusCalc cfg (busDecodeOf ob) (shuntDecodeOf os)).2.2.2,
        errorMsg := none, errorWrites := 0,
        regsRead := [BUS_REG, SHUNT_REG] } := by
  simp [ina219_get_status, get_bus_voltage_ok ob hbw hbr,
    get_shunt_voltage_ok os hsw hsr]

theorem get_status_shunt_fail (cfg : INA219Config) (ob os : SyscallOutcome)
    (hbw : ob.writeResult ≠ 0) (hbr : ob.readResult = 2)
    (hs : (ina219_get_shunt_voltage os).ret = false) :
    ina219_get_status cfg ob os =
      { ret := false, charge_status := none,
        battery_voltage_mv := some (busDecodeOf ob),
        percent_charged := some (percentFromBus cfg (busDecodeOf ob)),
        battery_current_mA := none, minutes := none,
        errorMsg := (ina219_get_shunt_voltage os).errorMsg,
        errorWrites := (ina219_get_shunt_voltage os).errorWrites,
        regsRead := [BUS_REG, SHUNT_REG] } := by
  simp [ina219_get_status, get_bus_voltage_ok ob hbw hbr, hs]

theorem get_status_bus_fail (cfg : INA219Config) (ob os : SyscallOutcome)
    (hb : (ina219_get_bus_voltage ob).ret = false) :
    ina219_get_status cfg ob os =
      { ret := false, charge_status := none, battery_voltage_mv := none,
        percent_charged := none, battery_current_mA := none, minutes := none,
        errorMsg := (ina219_get_bus_voltage ob).errorMsg,
        errorWrites := (ina219_get_bus_voltage ob).errorWrites,
        regsRead := [BUS_REG] } := by
  simp [ina219_get_status, hb]

theorem percentFromBus_eq_spec (cfg : INA219Config) (mv : Int) :
    percentFromBus cfg mv =
      percentSpec mv cfg.battery_voltage_0_percent
        cfg.battery_voltage_100_percent := by
  unfold percentFromBus percentSpec
  generalize Int.tdiv (100 * (mv - cfg.battery_voltage_0_percent))
    (cfg.battery_voltage_100_percent - cfg.battery_voltage_0_percent) = q
  dsimp only
  split_ifs <;> omega

theorem percentFromBus_bounds (cfg : INA219Config) (mv : Int) :
    0 ≤ percentFromBus cfg mv ∧ percentFromBus cfg mv ≤ 100 := by
  unfold percentFromBus
  generalize Int.tdiv (100 * (mv - cfg.battery_voltage_0_percent))
    (cfg.battery_voltage_100_percent - cfg.battery_voltage_0_percent) = q
  dsimp only
  split_ifs <;> omega

theorem reg_errorWrites (o : SyscallOutcome) :
    (ina219_register_read_16 o).errorWrites =
      (if (ina219_register_read_16 o).ret then 0 else 1) := by
  unfold ina219_register_read_16
  split_ifs <;> simp_all

theorem bus_errorWrites (o : SyscallOutcome) :
    (ina219_get_bus_voltage o).errorWrites =
      (if (ina219_get_bus_voltage o).ret then 0 else 1) := by
  cases h : (ina219_register_read_16 o).ret <;>
    simp [ina219_get_bus_voltage, h, reg_errorWrites o]

theorem shunt_errorWrites (o : SyscallOutcome) :
    (ina219_get_shunt_voltage o).errorWrites =
      (if (ina219_get_shunt_voltage o).ret then 0 else 1) := by
  cases h : (ina219_register_read_16 o).ret <;>
    simp [ina219_get_shunt_voltage, h, reg_errorWrites o]

theorem status_errorWrites (cfg : INA219Config) (ob os : SyscallOutcome) :
    (ina219_get_status cfg ob os).errorWrites =
      (if (ina219_get_status cfg ob os).ret then 0 else 1) := by
  cases hb : (ina219_get_bus_voltage ob).ret with
  | false =>
    rw [get_status_bus_fail cfg ob os hb]
    simp [bus_errorWrites ob, hb]
  | true =>
    obtain ⟨hw, hr⟩ := (bus_ret_iff ob).mp hb
    cases hs : (ina219_get_shunt_voltage os).ret with
    | false =>
      rw [get_status_shunt_fail cfg ob os hw hr hs]
      simp [shunt_errorWrites os, hs]
    | true =>
      obtain ⟨hw2, hr2⟩ := (shunt_ret_iff os).mp hs
      rw [get_status_run cfg ob os hw hr hw2 hr2]
      rfl

theorem handleStep_inv (addr : Int) (s : HandleState) (op : DriverOp)
    (h : handleInv addr s) : handleInv addr (handleStep addr s op) := by
  cases op with
  | initOp o b =>
    cases o with
    | none => exact Or.inl rfl
    | some fd =>
      cases b
      · exact Or.inr (Or.inr ⟨fd, rfl⟩)
      · exact Or.inr (Or.inl ⟨fd, rfl⟩)
  | uninitOp => exact Or.inl rfl
  | readOp => exact h

theorem runOps_inv (addr : Int) (ops : List DriverOp) (s : HandleState)
    (h : handleInv addr s) : handleInv addr (runOps addr s ops) := by
  induction ops generalizing s with
  | nil => exact h
  | cons op ops ih => exact ih _ (handleStep_inv addr s op h)

/-- C3 (code-bug evidence): with the write syscall failing with the POSIX
error return -1 and the subsequent read returning 2 bytes, the register
read takes the success path and reports no IoError, because the C condition
if (write (...)) treats the nonzero error return -1 as true; the claim says
such a call must fail with an IoError and succeed only when the write
completed. -/
theorem c3_write_failure_undetected :
    writeFailReadOkOutcome.writeResult = -1 ∧
    (ina219_register_read_16 writeFailReadOkOutcome).ret = true ∧
    (ina219_register_read_16 writeFailReadOkOutcome).errorMsg = none ∧
    (ina219_register_read_16 writeFailReadOkOutcome).data = some 5000 := by
  decide

/-- C4: for every successful bus-voltage read with raw 16-bit register
value r assembled big-endian from the two bytes read, the decoded millivolt
value equals (r & 0xFFF8) >> 1: the low three status bits are masked off
and the result is shifted right by one bit. -/
theorem c4_bus_decode_mask_shift (o : SyscallOutcome)
    (hw : o.writeResult ≠ 0) (hr : o.readResult = 2) :
    (ina219_get_bus_voltage o).mv =
      some ((((assemble16 o.byte0 o.byte1) &&& 0xFFF8) >>> 1 : Nat) : Int) := by
  rw [get_bus_voltage_ok o hw hr]
  simp only [busDecodeOf,
    busVoltageDecode_toInt16 _ (assemble16_lt o.byte0 o.byte1)]

/-- C4 witness at the concrete outcome busOkOutcome. -/
theorem c4_witness :
    busOkOutcome.writeResult ≠ 0 ∧ busOkOutcome.readResult = 2 ∧
    (ina219_get_bus_voltage busOkOutcome).mv =
      some ((((assemble16 busOkOutcome.byte0 busOkOutcome.byte1) &&& 0xFFF8)
        >>> 1 : Nat) : Int) :=
  ⟨by decide, by decide, c4_bus_decode_mask_shift busOkOutcome (by decide) (by decide)⟩

/-- C5: for every successful shunt-voltage read, the decoded millivolt
value is the signed 16-bit register value divided by 100 truncating toward
zero, and the result's sign follows the register value's sign. -/
theorem c5_shunt_decode_div100 (o : SyscallOutcome)
    (hw : o.writeResult ≠ 0) (hr : o.readResult = 2) :
    (ina219_get_shunt_voltage o).mv =
      some (truncDiv100Spec (toInt16 (assemble16 o.byte0 o.byte1))) ∧
    (0 ≤ toInt16 (assemble16 o.byte0 o.byte1) →
      0 ≤ truncDiv100Spec (toInt16 (assemble16 o.byte0 o.byte1))) ∧
    (toInt16 (assemble16 o.byte0 o.byte1) < 0 →
      truncDiv100Spec (toInt16 (assemble16 o.byte0 o.byte1)) ≤ 0) := by
  refine ⟨?_, truncDiv100Spec_nonneg _, truncDiv100Spec_nonpos _⟩
  rw [get_shunt_voltage_ok o hw hr]
  simp only [shuntDecodeOf, tdiv100_eq_truncSpec]

/-- C5 witness at the concrete outcome shuntOkOutcome. -/
theorem c5_witness :
    shuntOkOutcome.writeResult ≠ 0 ∧ shuntOkOutcome.readResult = 2 ∧
    ((ina219_get_shunt_voltage shuntOkOutcome).mv =
      some (truncDiv100Spec (toInt16 (assemble16 shuntOkOutcome.byte0 shuntOkOutcome.byte1))) ∧
    (0 ≤ toInt16 (assemble16 shuntOkOutcome.byte0 shuntOkOutcome.byte1) →
      0 ≤ truncDiv100Spec (toInt16 (assemble16 shuntOkOutcome.byte0 shuntOkOutcome.byte1))) ∧
    (toInt16 (assemble16 shuntOkOutcome.byte0 shuntOkOutcome.byte1) < 0 →
      truncDiv100Spec (toInt16 (assemble16 shuntOkOutcome.byte0 shuntOkOutcome.byte1)) ≤ 0)) :=
  ⟨by decide, by decide, c5_shunt_decode_div100 shuntOkOutcome (by decide) (by decide)⟩

/-- C7: when the bus-voltage register read fails, getStatus returns FALSE
with that same error, and performs no shunt-register read. -/
theorem c7_bus_fail_propagation (cfg : INA219Config) (ob os : SyscallOutcome)
    (hb : (ina219_get_bus_voltage ob).ret = false) :
    (ina219_get_status cfg ob os).ret = false ∧
    (ina219_get_status cfg ob os).errorMsg =
      (ina219_get_bus_voltage ob).errorMsg ∧
    (ina219_get_status cfg ob os).regsRead = [BUS_REG] ∧
    SHUNT_REG ∉ (ina219_get_status cfg ob os).regsRead := by
  rw [get_status_bus_fail cfg ob os hb]
  exact ⟨rfl, rfl, rfl, (by decide : SHUNT_REG ∉ [BUS_REG])⟩

/-- C7 witness: a bus read whose write syscall returns 0. -/
theorem c7_witness :
    (ina219_get_bus_voltage writeZeroOutcome).ret = false ∧
    ((ina219_get_status demoConfig writeZeroOutcome shuntOkOutcome).ret = false ∧
    (ina219_get_status demoConfig writeZeroOutcome shuntOkOutcome).errorMsg =
      (ina219_get_bus_voltage writeZeroOutcome).errorMsg ∧
    (ina219_get_status demoConfig writeZeroOutcome shuntOkOutcome).regsRead = [BUS_REG] ∧
    SHUNT_REG ∉ (ina219_get_status demoConfig writeZeroOutcome shuntOkOutcome).regsRead) :=
  ⟨by decide, c7_bus_fail_propagation demoConfig writeZeroOutcome shuntOkOutcome (by decide)⟩

/-- C9: end-to-end scenario A with the demo configuration: a decoded bus
voltage of 7130 mV and a decoded shunt voltage of 50 mV yield current
500 mA, percentage 50, status Charging and 144 minutes, via remaining
capacity (100 - 50) * 2400 / 100 = 1200 and minutes
(3600 * 1200 / 500) / 60 = 144, the division by the current being exact
here so that the C's real-valued division agrees with the truncation. -/
theorem c9_scenario_a :
    statusCalc demoConfig 7130 50 =
      (INA219ChargeStatus.charging, 50, 500, 144) ∧
    Int.tdiv ((100 - 50) * demoConfig.battery_capacity) 100 = 1200 ∧
    Int.tdiv (Int.tdiv (3600 * 1200) 500) 60 = 144 := by
  decide

/-- C10: for each fallible operation, the error out-parameter is assigned
exactly once when the operation fails and is left unassigned when it
succeeds. -/
theorem c10_error_write_discipline :
    (∀ o : SyscallOutcome, (ina219_register_read_16 o).errorWrites =
      (if (ina219_register_read_16 o).ret then 0 else 1)) ∧
    (∀ o : SyscallOutcome, (ina219_get_bus_voltage o).errorWrites =
      (if (ina219_get_bus_voltage o).ret then 0 else 1)) ∧
    (∀ o : SyscallOutcome, (ina219_get_shunt_voltage o).errorWrites =
      (if (ina219_get_shunt_voltage o).ret then 0 else 1)) ∧
    (∀ (cfg : INA219Config) (ob os : SyscallOutcome),
      (ina219_get_status cfg ob os).errorWrites =
        (if (ina219_get_status cfg ob os).ret then 0 else 1)) :=
  ⟨reg_errorWrites, bus_errorWrites, shunt_errorWrites, status_errorWrites⟩

/-- C8 counterexample: an init whose open succeeds and whose address bind
fails returns FALSE yet leaves the handle neither closed nor bound,
contradicting the claim that a failed init leaves the handle closed. -/
theorem c8_counterexample :
    (ina219_init 66 (some 3) false).1 = false ∧
    (runOps 66 HandleState.closed [DriverOp.initOp (some 3) false]).isClosed = false ∧
    (runOps 66 HandleState.closed [DriverOp.initOp (some 3) false]).isBound = false := by
  decide

/-- C8 amended: after every operation sequence the handle is closed, or
open and bound to the configured address, or open and unbound; a failed
open leaves it closed, while a failed address bind leaves it open and
unbound. -/
theorem c8_amended_handle_invariant :
    (∀ (addr : Int) (ops : List DriverOp),
      runOps addr HandleState.closed ops = HandleState.closed ∨
      (∃ fd, runOps addr HandleState.closed ops = HandleState.openBound fd addr) ∨
      (∃ fd, runOps addr HandleState.closed ops = HandleState.openUnbound fd)) ∧
    (∀ (addr : Int) (b : Bool),
      ina219_init addr none b = (false, HandleState.closed)) ∧
    (∀ (addr : Int) (fd : Nat),
      ina219_init addr (some fd) false = (false, HandleState.openUnbound fd)) := by
  refine ⟨fun addr ops => runOps_inv addr ops _ (Or.inl rfl), ?_, ?_⟩
  · intro addr b
    rfl
  · intro addr fd
    rfl

/-- C1: for every successful getStatus call, with p the clamped percentage
and c the computed battery current, the charge status is FullyCharged
exactly when p is at least 99 or c is below the minimum charging current;
otherwise it is Charging exactly when c is positive, and Discharging
otherwise. -/
theorem c1_charge_classification (cfg : INA219Config) (ob os : SyscallOutcome)
    (p c : Int) (cs : INA219ChargeStatus)
    (hret : (ina219_get_status cfg ob os).ret = true)
    (hp : (ina219_get_status cfg ob os).percent_charged = some p)
    (hc : (ina219_get_status cfg ob os).battery_current_mA = some c)
    (hcs : (ina219_get_status cfg ob os).charge_status = some cs) :
    (cs = INA219ChargeStatus.fullyCharged ↔
      (99 ≤ p ∨ c < cfg.min_charging_current)) ∧
    (¬(99 ≤ p ∨ c < cfg.min_charging_current) →
      ((cs = INA219ChargeStatus.charging ↔ 0 < c) ∧
       (cs = INA219ChargeStatus.discharging ↔ ¬0 < c))) := by
  cases hb : (ina219_get_bus_voltage ob).ret with
  | false =>
    rw [get_status_bus_fail cfg ob os hb] at hret
    exact absurd hret (by simp)
  | true =>
    obtain ⟨hw, hr⟩ := (bus_ret_iff ob).mp hb
    cases hs : (ina219_get_shunt_voltage os).ret with
    | false =>
      rw [get_status_shunt_fail cfg ob os hw hr hs] at hret
      exact absurd hret (by simp)
    | true =>
      obtain ⟨hw2, hr2⟩ := (shunt_ret_iff os).mp hs
      rw [get_status_run cfg ob os hw hr hw2 hr2] at hp hc hcs
      simp only [statusCalc, Option.some.injEq] at hp hc hcs
      subst hp
      subst hc
      subst hcs
      unfold chargeStatusCalc INA_FULL_PERCENT
      split_ifs with h1 h2
      · exact ⟨iff_of_true rfl h1, fun h => absurd h1 h⟩
      · exact ⟨iff_of_false (by simp) h1,
          fun _ => ⟨iff_of_true rfl h2, iff_of_false (by simp) (fun hn => hn h2)⟩⟩
      · exact ⟨iff_of_false (by simp) h1,
          fun _ => ⟨iff_of_false (by simp) h2, iff_of_true rfl h2⟩⟩

/-- C1 witness with the demo configuration: percentage 50, current 500 mA,
status Charging. -/
theorem c1_witness :
    (ina219_get_status demoConfig busOkOutcome shuntOkOutcome).ret = true ∧
    (ina219_get_status demoConfig busOkOutcome shuntOkOutcome).percent_charged = some 50 ∧
    (ina219_get_status demoConfig busOkOutcome shuntOkOutcome).battery_current_mA = some 500 ∧
    (ina219_get_status demoConfig busOkOutcome shuntOkOutcome).charge_status =
      some INA219ChargeStatus.charging ∧
    ((INA219ChargeStatus.charging = INA219ChargeStatus.fullyCharged ↔
      ((99:Int) ≤ 50 ∨ (500:Int) < demoConfig.min_charging_current)) ∧
    (¬((99:Int) ≤ 50 ∨ (500:Int) < demoConfig.min_charging_current) →
      ((INA219ChargeStatus.charging = INA219ChargeStatus.charging ↔ (0:Int) < 500) ∧
       (INA219ChargeStatus.charging = INA219ChargeStatus.discharging ↔ ¬(0:Int) < 500)))) :=
  ⟨by decide, by decide, by decide, by decide,
    c1_charge_classification demoConfig busOkOutcome shuntOkOutcome 50 500
      INA219ChargeStatus.charging (by decide) (by decide) (by decide) (by decide)⟩

/-- C2 counterexample: with the demo configuration, a call whose bus read
succeeds (decoding 7132 mV) and whose shunt read fails returns FALSE, yet
the percentage and bus-voltage out-parameters are left holding the computed
partial results instead of being discarded as the claim states. -/
theorem c2_counterexample :
    (ina219_get_status demoConfig busOkOutcome readFailOutcome).ret = false ∧
    (ina219_get_status demoConfig busOkOutcome readFailOutcome).percent_charged = some 50 ∧
    (ina219_get_status demoConfig busOkOutcome readFailOutcome).battery_voltage_mv = some 7132 := by
  decide

/-- C2 amended: when the bus read succeeds and the shunt read fails,
getStatus returns FALSE carrying the shunt read's error, and the
charge-status, current and minutes out-parameters are not assigned; however
the bus-voltage and percentage out-parameters have already been assigned
the computed values, so the call is not all-or-nothing for those two. -/
theorem c2_amended_partial_outputs (cfg : INA219Config) (ob os : SyscallOutcome)
    (hw : ob.writeResult ≠ 0) (hr : ob.readResult = 2)
    (hs : (ina219_get_shunt_voltage os).ret = false) :
    (ina219_get_status cfg ob os).ret = false ∧
    (ina219_get_status cfg ob os).errorMsg = (ina219_get_shunt_voltage os).errorMsg ∧
    (ina219_get_status cfg ob os).charge_status = none ∧
    (ina219_get_status cfg ob os).battery_current_mA = none ∧
    (ina219_get_status cfg ob os).minutes = none ∧
    (ina219_get_status cfg ob os).battery_voltage_mv = some (busDecodeOf ob) ∧
    (ina219_get_status cfg ob os).percent_charged =
      some (percentFromBus cfg (busDecodeOf ob)) := by
  rw [get_status_shunt_fail cfg ob os hw hr hs]
  exact ⟨rfl, rfl, rfl, rfl, rfl, rfl, rfl⟩

/-- C2 witness at concrete outcomes: bus read succeeds, shunt read fails. -/
theorem c2_witness :
    busOkOutcome.writeResult ≠ 0 ∧ busOkOutcome.readResult = 2 ∧
    (ina219_get_shunt_voltage readFailOutcome).ret = false ∧
    ((ina219_get_status demoConfig busOkOutcome readFailOutcome).ret = false ∧
    (ina219_get_status demoConfig busOkOutcome readFailOutcome).errorMsg =
      (ina219_get_shunt_voltage readFailOutcome).errorMsg ∧
    (ina219_get_status demoConfig busOkOutcome readFailOutcome).charge_status = none ∧
    (ina219_get_status demoConfig busOkOutcome readFailOutcome).battery_current_mA = none ∧
    (ina219_get_status demoConfig busOkOutcome readFailOutcome).minutes = none ∧
    (ina219_get_status demoConfig busOkOutcome readFailOutcome).battery_voltage_mv =
      some (busDecodeOf busOkOutcome) ∧
    (ina219_get_status demoConfig busOkOutcome readFailOutcome).percent_charged =
      some (percentFromBus demoConfig (busDecodeOf busOkOutcome))) :=
  ⟨by decide, by decide, by decide,
    c2_amended_partial_outputs demoConfig busOkOutcome readFailOutcome
      (by decide) (by decide) (by decide)⟩

/-- C6: when the 100-percent voltage exceeds the 0-percent voltage, the
percentage reported by getStatus alongside reported bus voltage v equals
100 * (v - v0) / (v100 - v0) with truncating integer division clamped into
the interval from 0 to 100. -/
theorem c6_percent_formula_clamped (cfg : INA219Config) (ob os : SyscallOutcome)
    (_hv : cfg.battery_voltage_0_percent < cfg.battery_voltage_100_percent)
    (hw : ob.writeResult ≠ 0) (hr : ob.readResult = 2) (v p : Int)
    (hmv : (ina219_get_status cfg ob os).battery_voltage_mv = some v)
    (hp : (ina219_get_status cfg ob os).percent_charged = some p) :
    p = percentSpec v cfg.battery_voltage_0_percent
        cfg.battery_voltage_100_percent ∧ 0 ≤ p ∧ p ≤ 100 := by
  cases hs : (ina219_get_shunt_voltage os).ret with
  | false =>
    rw [get_status_shunt_fail cfg ob os hw hr hs] at hmv hp
    simp only [Option.some.injEq] at hmv hp
    subst hmv
    subst hp
    exact ⟨percentFromBus_eq_spec cfg _, percentFromBus_bounds cfg _⟩
  | true =>
    obtain ⟨hw2, hr2⟩ := (shunt_ret_iff os).mp hs
    rw [get_status_run cfg ob os hw hr hw2 hr2] at hmv hp
    simp only [Option.some.injEq] at hmv hp
    subst hmv
    subst hp
    exact ⟨percentFromBus_eq_spec cfg _, percentFromBus_bounds cfg _⟩

/-- C6 witness with the demo configuration: reported voltage 7132 mV gives
percentage 50. -/
theorem c6_witness :
    demoConfig.battery_voltage_0_percent < demoConfig.battery_voltage_100_percent ∧
    busOkOutcome.writeResult ≠ 0 ∧ busOkOutcome.readResult = 2 ∧
    (ina219_get_status demoConfig busOkOutcome shuntOkOutcome).battery_voltage_mv = some 7132 ∧
    (ina219_get_status demoConfig busOkOutcome shuntOkOutcome).percent_charged = some 50 ∧
    ((50:Int) = percentSpec 7132 demoConfig.battery_voltage_0_percent
        demoConfig.battery_voltage_100_percent ∧ (0:Int) ≤ 50 ∧ (50:Int) ≤ 100) :=
  ⟨by decide, by decide, by decide, by decide, by decide,
    c6_percent_formula_clamped demoConfig busOkOutcome shuntOkOutcome (by decide)
      (by decide) (by decide) 7132 50 (by decide) (by decide)⟩

end INA219
